/-
Verification of the manifest fetch-and-normalize pipeline of `src/main.py`
(YouTube Stream Updater).

The program's pure decision logic is shallowly embedded here:
  * `splitNl` / `joinNl`        — Python `str.split('\n')` / `'\n'.join(...)` on char lists
  * `scan_blocks`               — the block-scanning loop of `reverse_hls_quality`
  * `reverse_hls_quality`       — the quality-reordering transform (lines 214-252)
  * `query_param_of`, `fetch_stream_url` — URL building, HTTP classification (lines 95-211);
     the network transport is an explicit parameter giving each GET's outcome
  * `fetch_stream_url_with_retry` — the retry/backoff loop (lines 72-92); sleeps are
     recorded as a list of delay durations instead of being performed
  * `get_output_path`, `delete_old_file`, `save_stream` — the artifact writer
     (lines 255-345) over an explicit filesystem state
  * `process_stream`, `run_streams` — the per-descriptor driver logic (lines 447-469)

Python exceptions are modelled with `Except`: an uncaught exception is an
`Except.error` escaping the function, a caught one is handled in place.
The bare `return None` of line 108 is modelled by `FetchRet.bare`; unpacking it
in the caller (line 83) raises `TypeError`, modelled as `PyErr.typeError`.
-/
import Mathlib

/-! ## Python string primitives, on `List Char` -/

/-- `startsWithL l pre` is Python's `l.startswith(pre)`. -/
def startsWithL (l pre : List Char) : Bool :=
  match pre, l with
  | [], _ => true
  | _ :: _, [] => false
  | p :: ps, c :: cs => p == c && startsWithL cs ps

/-- `containsSub sub l` is Python's `sub in l` (substring containment). -/
def containsSub (sub : List Char) : List Char → Bool
  | [] => sub.isEmpty
  | c :: t => startsWithL (c :: t) sub || containsSub sub t

/-- Python `sub in s` on strings. -/
def pyIn (sub s : String) : Bool := containsSub sub.data s.data

/-- Python `s.split('\n')`. -/
def splitNl : List Char → List (List Char)
  | [] => [[]]
  | c :: cs =>
    if c = '\n' then [] :: splitNl cs
    else
      match splitNl cs with
      | [] => [[c]]
      | t :: ts => (c :: t) :: ts

/-- Python `'\n'.join(lines)`. -/
def joinNl : List (List Char) → List Char
  | [] => []
  | [l] => l
  | l :: l' :: ls => l ++ '\n' :: joinNl (l' :: ls)

/-- `true` iff the line contains no newline character. -/
def noNl : List Char → Bool
  | [] => true
  | c :: cs => (c != '\n') && noNl cs

/-! ## The quality-reordering transform (`reverse_hls_quality`, lines 214-252) -/

/-- Python `line.startswith('#EXTM3U')` (line 226). -/
def isHeaderL (l : List Char) : Bool := startsWithL l "#EXTM3U".data

/-- Python `line.startswith('#EXT-X-STREAM-INF')` (line 229). -/
def isInfL (l : List Char) : Bool := startsWithL l "#EXT-X-STREAM-INF".data

/-- Python `line and not line.startswith('#')` (line 235): the line closes a block. -/
def closesL (l : List Char) : Bool := !l.isEmpty && !startsWithL l "#".data

/-- The block-scanning loop of `reverse_hls_quality` (lines 225-242), with the
`stream_blocks` accumulator and the `current_block` buffer made explicit. -/
def scan_blocks : List (List Char) → List (List (List Char)) → List (List Char) →
    List (List (List Char))
  | [], blocks, current =>
    if current.isEmpty then blocks else blocks ++ [current]
  | line :: rest, blocks, current =>
    if isHeaderL line then
      scan_blocks rest blocks current
    else if isInfL line then
      scan_blocks rest (if current.isEmpty then blocks else blocks ++ [current]) [line]
    else if !current.isEmpty then
      if closesL line then scan_blocks rest (blocks ++ [current ++ [line]]) []
      else scan_blocks rest blocks (current ++ [line])
    else
      scan_blocks rest blocks current

/-- The block list that `reverse_hls_quality` extracts from a manifest text. -/
def parse_blocks (s : String) : List (List (List Char)) :=
  scan_blocks (splitNl s.data) [] []

/-- `reverse_hls_quality` (lines 214-252): drop header lines, collect stream
blocks, reverse their order, and re-emit a single `#EXTM3U` header on top. -/
def reverse_hls_quality (s : String) : String :=
  String.mk (joinNl ("#EXTM3U".data :: (parse_blocks s).reverse.flatten))

/-- A manifest text assembled from a header line and a list of line blocks. -/
def manifestText (h : List Char) (bs : List (List (List Char))) : String :=
  String.mk (joinNl (h :: bs.flatten))

/-! ### Well-formedness of stream-info blocks

`wfBlock b` says `b` is a block in the sense of the scanner: a leading
`#EXT-X-STREAM-INF` line, then attribute/comment/empty lines that neither
start a new block nor close this one, terminated by exactly one URI line. -/

/-- A line that is absorbed into a block without closing it. -/
def midOKb (l : List Char) : Bool :=
  !isHeaderL l && !isInfL l && !closesL l && noNl l

/-- Tail of a block: middle lines then the single closing URI line. -/
def wfRest : List (List Char) → Bool
  | [] => false
  | [l] => closesL l && noNl l
  | l :: l' :: ls => midOKb l && wfRest (l' :: ls)

/-- A well-formed (terminated) stream-info block. -/
def wfBlock : List (List Char) → Bool
  | [] => false
  | f :: rest => isInfL f && noNl f && wfRest rest

/-! ## The fetcher (`fetch_stream_url`, lines 95-211)

The HTTP transport is opaque in the program (a `requests`/`cloudscraper`
session); it is modelled as a function from (request index within one call,
URL) to a `GetResult`.  `raise_for_status` and the exception classification of
the `except` block (lines 185-211) are embedded as pure functions of the
exception's `str(e)` text, its class name and its optional attached response,
mirroring the string-sniffing of the source. -/

/-- What a Python exception exposes to the classifier at lines 185-211. -/
structure PyExcInfo where
  msg : String
  excName : String
  responseStatus : Option Nat
  deriving DecidableEq

/-- Outcome of one `session.get`: a response, or a raised exception. -/
inductive GetResult where
  | resp (status : Nat) (reason : String) (body : String)
  | raise (e : PyExcInfo)
  deriving DecidableEq

/-- Return value shape of `fetch_stream_url`: every path returns the pair
`(result, error_type)` except line 108, which returns a bare `None`. -/
inductive FetchRet where
  | pair (result : Option String) (errType : Option String)
  | bare
  deriving DecidableEq

/-- One `fetch_stream_url` call's return value together with the URLs it
requested, in order. -/
structure FetchCallResult where
  ret : FetchRet
  requests : List String
  deriving DecidableEq

/-- The message of the `HTTPError` raised by `response.raise_for_status()`. -/
def http_error_msg (status : Nat) (reason url : String) : String :=
  if status < 500 then
    toString status ++ " Client Error: " ++ reason ++ " for url: " ++ url
  else
    toString status ++ " Server Error: " ++ reason ++ " for url: " ++ url

/-- Python `s.lower()` (ASCII, which is all the classifier compares). -/
def pyLower (s : String) : String := String.mk (s.data.map Char.toLower)

/-- The `except` block of `fetch_stream_url` (lines 185-211): classify an
exception into an error-type string by sniffing `str(e).lower()`, then the
attached response, then the exception class name. -/
def classify_exception (e : PyExcInfo) : String :=
  if pyIn "timeout" (pyLower e.msg) || pyIn "timed out" (pyLower e.msg) then
    "Timeout"
  else if pyIn "connection" (pyLower e.msg) || pyIn "remote" (pyLower e.msg) then
    "ConnectionError"
  else
    match e.responseStatus with
    | some st => "HTTPError-" ++ toString st
    | none => e.excName

/-- The content check of lines 170-183: a preview of the first 200 characters
is inspected; `#EXTM3U` anywhere in it means the body is returned as success,
`<html` (case-insensitive) means failure `'HTMLResponse'`, and any other body
falls through to `return response.text, None`. -/
def classify_content (body : String) : FetchRet :=
  let preview := String.mk (body.data.take 200)
  if pyIn "#EXTM3U" preview then .pair (some body) none
  else if pyIn "<html" (pyLower preview) then .pair none (some "HTMLResponse")
  else .pair (some body) none

/-- `query_param` selection of lines 101-108: `video` → `v`, `channel` → `c`,
anything else hits the `else` branch (which in the source returns a bare
`None`). -/
def query_param_of (stream_type : String) : Option String :=
  if stream_type = "video" then some "v"
  else if stream_type = "channel" then some "c"
  else none

/-- Helper for `extract_redirect_url`: strip a literal from the front. -/
def stripPre : List Char → List Char → Option (List Char)
  | [], l => some l
  | _ :: _, [] => none
  | p :: ps, c :: cs => if p = c then stripPre ps cs else none

/-- Python's `\s` class (whitespace). -/
def pySpace (c : Char) : Bool :=
  c = ' ' || c = '\t' || c = '\n' || c = '\r' || c = '\x0b' || c = '\x0c'

/-- A quote character, `"` or the single quote, for the regex class. -/
def isQuote (c : Char) : Bool := c = '"' || c.toNat = 39

/-- Match the regex `location\.href\s*=\s*["{QUOTE}]([^"{QUOTE}]+)["{QUOTE}]`
at the start of `l`, returning the captured group. -/
def matchHref (l : List Char) : Option (List Char) :=
  match stripPre "location.href".data l with
  | none => none
  | some r =>
    match r.dropWhile pySpace with
    | '=' :: r2 =>
      match r2.dropWhile pySpace with
      | q :: r3 =>
        if isQuote q then
          let content := r3.takeWhile (fun c => !isQuote c)
          match content, r3.dropWhile (fun c => !isQuote c) with
          | [], _ => none
          | _ :: _, [] => none
          | _ :: _, _ :: _ => some content
        else none
      | [] => none
    | _ => none

/-- Leftmost regex match, as `re.search` performs it. -/
def searchHref : List Char → Option (List Char)
  | [] => none
  | l@(_ :: t) =>
    match matchHref l with
    | some r => some r
    | none => searchHref t

/-- `extract_redirect_url` (lines 285-294). -/
def extract_redirect_url (content : String) : Option String :=
  (searchHref content.data).map String.mk

/-- `solve_js_challenge` (lines 297-320): when a challenge marker is present,
return the extracted redirect URL; in every other case (including a challenge
page with no extractable URL) return `None`. -/
def solve_js_challenge (content : String) : Option String :=
  if pyIn "<script type=\"text/javascript\" src=\"/aes.js\"" content
      || pyIn "slowAES.decrypt" content then
    extract_redirect_url content
  else none

/-- The `try` body of `fetch_stream_url` (lines 115-183) plus the `except`
classification: one GET to `url`, `raise_for_status`, the manual challenge
hop when cloudscraper is unavailable (lines 146-168), and the content check. -/
def http_attempt (csAvail : Bool) (transport : Nat → String → GetResult)
    (url : String) : FetchCallResult :=
  match transport 0 url with
  | .raise e => ⟨.pair none (some (classify_exception e)), [url]⟩
  | .resp st reason body =>
    if 400 ≤ st ∧ st < 600 then
      ⟨.pair none (some (classify_exception
          ⟨http_error_msg st reason url, "HTTPError", some st⟩)), [url]⟩
    else if csAvail then
      ⟨classify_content body, [url]⟩
    else
      match solve_js_challenge body with
      | none => ⟨classify_content body, [url]⟩
      | some rurl =>
        match transport 1 rurl with
        | .raise e => ⟨.pair none (some (classify_exception e)), [url, rurl]⟩
        | .resp st2 reason2 body2 =>
          if 400 ≤ st2 ∧ st2 < 600 then
            ⟨.pair none (some (classify_exception
                ⟨http_error_msg st2 reason2 rurl, "HTTPError", some st2⟩)), [url, rurl]⟩
          else ⟨classify_content body2, [url, rurl]⟩

/-- `fetch_stream_url` (lines 95-211).  `transport i url` is the outcome of
the `i`-th GET of this call (the source performs at most two).  The
`csAvail` flag is the module-level `CLOUDSCRAPER_AVAILABLE`. -/
def fetch_stream_url (endpoint : String) (csAvail : Bool)
    (transport : Nat → String → GetResult) (cfg_type : Option String)
    (cfg_id : String) : FetchCallResult :=
  match query_param_of (cfg_type.getD "channel") with
  | none => ⟨.bare, []⟩
  | some qp => http_attempt csAvail transport (endpoint ++ "/yt.php?" ++ qp ++ "=" ++ cfg_id)

/-! ## The retry loop (`fetch_stream_url_with_retry`, lines 72-92) -/

/-- Uncaught Python exceptions that escape the per-descriptor processing. -/
inductive PyErr where
  | typeError
  | osError
  deriving DecidableEq

/-- Observable outcome of the retry loop: the returned pair, the number of
`fetch_stream_url` invocations performed, and the list of back-off sleeps
(in seconds) in the order they happen. -/
structure RetryOut where
  result : Option String
  errType : Option String
  attemptsMade : Nat
  delays : List Nat
  deriving DecidableEq

/-- The `for attempt in range(1, MAX_RETRIES + 1)` loop (lines 77-92).
`remaining` counts the iterations left, `n` is the 1-based attempt number.
Unpacking the bare `None` of line 108 raises `TypeError` (line 83). -/
def retryLoop (retryDelay : Nat) (attempt : Nat → FetchRet) :
    Nat → Nat → Nat → Option String → List Nat → Except PyErr RetryOut
  | 0, _, made, lastErr, ds => .ok ⟨none, lastErr, made, ds⟩
  | rem + 1, n, made, lastErr, ds =>
    let ds := if 1 < n then ds ++ [retryDelay * 2 ^ (n - 2)] else ds
    match attempt n with
    | .bare => .error .typeError
    | .pair r e =>
      match r with
      | some s => .ok ⟨some s, none, made + 1, ds⟩
      | none => retryLoop retryDelay attempt rem (n + 1) (made + 1) e ds

/-- `fetch_stream_url_with_retry` (lines 72-92). -/
def fetch_stream_url_with_retry (maxRetries retryDelay : Nat)
    (attempt : Nat → FetchRet) : Except PyErr RetryOut :=
  retryLoop retryDelay attempt maxRetries 1 0 none []

/-! ## The artifact writer (lines 255-345) over an explicit filesystem -/

/-- Filesystem state: contents by path, plus environment flags saying whether
the next mkdir / file write / unlink raises an `OSError`. -/
structure FS where
  files : String → Option String
  mkdirFails : Bool
  writeFails : Bool
  unlinkFails : Bool

/-- `get_output_path` (lines 255-266): `{folder}/{subfolder?}/{slug}.m3u8`. -/
def get_output_path (folder : String) (subfolder slug : String) : String :=
  if subfolder ≠ "" then folder ++ "/" ++ subfolder ++ "/" ++ slug ++ ".m3u8"
  else folder ++ "/" ++ slug ++ ".m3u8"

/-- `delete_old_file` (lines 269-282): unlink the artifact if present; a
raised unlink error is caught and reported as `False`. -/
def delete_old_file (folder subfolder slug : String) (fs : FS) : Bool × FS :=
  let p := get_output_path folder subfolder slug
  match fs.files p with
  | some _ =>
    if fs.unlinkFails then (false, fs)
    else (true, { fs with files := fun q => if q = p then none else fs.files q })
  | none => (false, fs)

/-- `save_stream` (lines 323-345): the `mkdir` of line 332 sits outside the
`try` block, so its failure is an uncaught `OSError`; a write failure inside
the `try` is caught and returned as `False`. -/
def save_stream (folder subfolder slug : String) (content : String) (fs : FS) :
    Except PyErr (Bool × FS) :=
  let p := get_output_path folder subfolder slug
  if fs.mkdirFails then .error .osError
  else
    let reversedContent := reverse_hls_quality content
    if fs.writeFails then .ok (false, fs)
    else .ok (true, { fs with files := fun q => if q = p then some reversedContent else fs.files q })

/-! ## The driver (lines 447-469) -/

/-- The driver's aggregate counters plus the filesystem it owns. -/
structure BatchState where
  total_success : Nat
  total_fail : Nat
  error_summary : String → Nat
  fs : FS

/-- `error_summary[k] = error_summary.get(k, 0) + 1`. -/
def bump (m : String → Nat) (k : String) : String → Nat :=
  fun k' => if k' = k then m k + 1 else m k'

/-- Lines 467-469: `if error_type:` — record the kind only when truthy. -/
def record_error (st : BatchState) (errType : Option String) : BatchState :=
  match errType with
  | some k =>
    if k ≠ "" then { st with error_summary := bump st.error_summary k } else st
  | none => st

/-- The fetch-failure branch of the driver (lines 463-469): count the failure,
delete the stale artifact, and record the error kind when present. -/
def fail_branch (folder subfolder slug : String) (errType : Option String)
    (st : BatchState) : BatchState :=
  let st1ate : BatchState := { st with total_fail := st.total_fail + 1 }
  let del := delete_old_file folder subfolder slug st1ate.fs
  record_error { st1ate with fs := del.2 } errType

/-- One iteration of the driver's per-stream loop (lines 447-469): fetch with
retry, then either save (lines 454-462) or run the failure branch.  The
truthiness test `if m3u8_content:` treats both `None` and `""` as failure. -/
def process_stream (folder subfolder slug : String) (maxRetries retryDelay : Nat)
    (attempt : Nat → FetchRet) (st : BatchState) : Except PyErr BatchState :=
  match fetch_stream_url_with_retry maxRetries retryDelay attempt with
  | .error e => .error e
  | .ok out =>
    match out.result with
    | some content =>
      if content ≠ "" then
        match save_stream folder subfolder slug content st.fs with
        | .error e => .error e
        | .ok (true, fs') =>
          .ok { st with total_success := st.total_success + 1, fs := fs' }
        | .ok (false, fs') =>
          let st1 : BatchState := { st with total_fail := st.total_fail + 1, fs := fs' }
          let del := delete_old_file folder subfolder slug st1.fs
          .ok { st1 with fs := del.2, error_summary := bump st1.error_summary "SaveError" }
      else .ok (fail_branch folder subfolder slug out.errType st)
    | none => .ok (fail_branch folder subfolder slug out.errType st)

/-- A descriptor together with the per-attempt fetch outcomes its processing
would observe. -/
structure StreamRun where
  subfolder : String
  slug : String
  attempt : Nat → FetchRet

/-- The driver's loop over the descriptors of the loaded lists: an uncaught
exception from any descriptor aborts the whole remaining batch. -/
def run_streams (folder : String) (maxRetries retryDelay : Nat) :
    List StreamRun → BatchState → Except PyErr BatchState
  | [], st => .ok st
  | r :: rest, st =>
    match process_stream folder r.subfolder r.slug maxRetries retryDelay r.attempt st with
    | .error e => .error e
    | .ok st' => run_streams folder maxRetries retryDelay rest st'

/-! ## Concrete fixtures used by the scenario theorems -/

/-- An empty filesystem with no injected faults. -/
def fs0 : FS := ⟨fun _ => none, false, false, false⟩

/-- A filesystem holding a stale artifact for slug `mychannel`. -/
def fsOld : FS :=
  ⟨fun p => if p = "streams/mychannel.m3u8" then some "#EXTM3U-old" else none,
    false, false, false⟩

/-- Driver state at the start of a batch, over `fs0`. -/
def st0 : BatchState := ⟨0, 0, fun _ => 0, fs0⟩

/-- Driver state at the start of a batch, over `fsOld`. -/
def stOld : BatchState := ⟨0, 0, fun _ => 0, fsOld⟩

/-- The default endpoint of the program's configuration. -/
def defaultEndpoint : String := "https://your-endpoint.com"

/-- The C6 scenario's response body (trailing newline included). -/
def happyInput : String :=
  "#EXTM3U\n#EXT-X-STREAM-INF:BANDWIDTH=100\nlow.m3u8\n#EXT-X-STREAM-INF:BANDWIDTH=900\nhigh.m3u8\n"

/-- The C6 scenario's expected artifact content (no trailing newline). -/
def happyOutput : String :=
  "#EXTM3U\n#EXT-X-STREAM-INF:BANDWIDTH=900\nhigh.m3u8\n#EXT-X-STREAM-INF:BANDWIDTH=100\nlow.m3u8"

/-! ## Bridge lemmas for the string primitives -/

theorem startsWithL_iff (pre l : List Char) : startsWithL l pre = true ↔ pre <+: l := by
  induction pre generalizing l with
  | nil => simp [startsWithL]
  | cons p ps ih =>
    cases l with
    | nil => simp [startsWithL]
    | cons c cs =>
      rw [show startsWithL (c :: cs) (p :: ps) = (p == c && startsWithL cs ps) from rfl]
      rw [Bool.and_eq_true, beq_iff_eq, List.cons_prefix_cons, ih]

theorem startsWithL_mono {a b l : List Char} (hba : b <+: a)
    (h : startsWithL l a = true) : startsWithL l b = true := by
  rw [startsWithL_iff] at h ⊢
  exact hba.trans h

theorem header_hash {l : List Char} (h : isHeaderL l = true) :
    startsWithL l "#".data = true :=
  startsWithL_mono ((startsWithL_iff _ _).mp (by decide)) h

theorem inf_hash {l : List Char} (h : isInfL l = true) :
    startsWithL l "#".data = true :=
  startsWithL_mono ((startsWithL_iff _ _).mp (by decide)) h

theorem inf_not_header {l : List Char} (h : isInfL l = true) : isHeaderL l = false := by
  by_contra hc
  rw [Bool.not_eq_false] at hc
  rw [isInfL, startsWithL_iff] at h
  rw [isHeaderL, startsWithL_iff] at hc
  rcases List.prefix_or_prefix_of_prefix hc h with h' | h'
  · exact absurd ((startsWithL_iff _ _).mpr h') (by decide)
  · exact absurd ((startsWithL_iff _ _).mpr h') (by decide)

theorem closes_not_header {l : List Char} (h : closesL l = true) : isHeaderL l = false := by
  by_contra hc
  rw [Bool.not_eq_false] at hc
  rw [closesL, Bool.and_eq_true] at h
  rw [header_hash hc] at h
  simp at h

theorem closes_not_inf {l : List Char} (h : closesL l = true) : isInfL l = false := by
  by_contra hc
  rw [Bool.not_eq_false] at hc
  rw [closesL, Bool.and_eq_true] at h
  rw [inf_hash hc] at h
  simp at h

theorem noNl_iff (l : List Char) : noNl l = true ↔ '\n' ∉ l := by
  induction l with
  | nil => simp [noNl]
  | cons c cs ih =>
    rw [show noNl (c :: cs) = ((c != '\n') && noNl cs) from rfl]
    rw [Bool.and_eq_true, bne_iff_ne, ih, ne_comm]
    simp only [List.mem_cons, not_or]

/-! ## `splitNl` inverts `joinNl` on newline-free lines -/

theorem splitNl_noNl {a : List Char} (h : '\n' ∉ a) : splitNl a = [a] := by
  induction a with
  | nil => rfl
  | cons c cs ih =>
    have h1 : ¬ c = '\n' := fun hc => h (hc ▸ List.mem_cons_self c cs)
    have h2 : '\n' ∉ cs := fun hm => h (List.mem_cons_of_mem _ hm)
    simp [splitNl, h1, ih h2]

theorem splitNl_append {a r : List Char} (h : '\n' ∉ a) :
    splitNl (a ++ '\n' :: r) = a :: splitNl r := by
  induction a with
  | nil => simp [splitNl]
  | cons c cs ih =>
    have h1 : ¬ c = '\n' := fun hc => h (hc ▸ List.mem_cons_self c cs)
    have h2 : '\n' ∉ cs := fun hm => h (List.mem_cons_of_mem _ hm)
    simp [splitNl, h1, ih h2]

theorem splitNl_joinNl {L : List (List Char)} (hne : L ≠ [])
    (h : ∀ l ∈ L, '\n' ∉ l) : splitNl (joinNl L) = L := by
  induction L with
  | nil => exact absurd rfl hne
  | cons a L ih =>
    cases L with
    | nil => simp [joinNl, splitNl_noNl (h a (by simp))]
    | cons b L' =>
      rw [joinNl, splitNl_append (h a (by simp)),
        ih (by simp) (fun l hl => h l (List.mem_cons_of_mem _ hl))]

/-! ## Structure of well-formed blocks and behaviour of the scanner -/

theorem wfRest_parts {r : List (List Char)} (h : wfRest r = true) :
    ∃ mids last, r = mids ++ [last] ∧ (∀ m ∈ mids, midOKb m = true) ∧
      closesL last = true ∧ noNl last = true := by
  induction r with
  | nil => exact absurd h (by simp [wfRest])
  | cons l r ih =>
    cases r with
    | nil =>
      rw [wfRest, Bool.and_eq_true] at h
      exact ⟨[], l, rfl, by simp, h.1, h.2⟩
    | cons l' r' =>
      rw [wfRest, Bool.and_eq_true] at h
      obtain ⟨mids, last, heq, hm, hc, hn⟩ := ih h.2
      refine ⟨l :: mids, last, by rw [List.cons_append, heq], ?_, hc, hn⟩
      intro m hm'
      rcases List.mem_cons.mp hm' with rfl | hm''
      · exact h.1
      · exact hm m hm''

theorem wfBlock_parts {b : List (List Char)} (h : wfBlock b = true) :
    ∃ f mids last, b = f :: (mids ++ [last]) ∧ isInfL f = true ∧ noNl f = true ∧
      (∀ m ∈ mids, midOKb m = true) ∧ closesL last = true ∧ noNl last = true := by
  cases b with
  | nil => exact absurd h (by simp [wfBlock])
  | cons f rest =>
    rw [wfBlock, Bool.and_eq_true, Bool.and_eq_true] at h
    obtain ⟨mids, last, heq, hm, hc, hn⟩ := wfRest_parts h.2
    exact ⟨f, mids, last, by rw [heq], h.1.1, h.1.2, hm, hc, hn⟩

theorem midOKb_parts {m : List Char} (h : midOKb m = true) :
    isHeaderL m = false ∧ isInfL m = false ∧ closesL m = false ∧ noNl m = true := by
  rw [midOKb, Bool.and_eq_true, Bool.and_eq_true, Bool.and_eq_true] at h
  obtain ⟨⟨⟨h1, h2⟩, h3⟩, h4⟩ := h
  rw [Bool.not_eq_true'] at h1 h2 h3
  exact ⟨h1, h2, h3, h4⟩

theorem wfBlock_noNl {b : List (List Char)} (h : wfBlock b = true) :
    ∀ l ∈ b, '\n' ∉ l := by
  obtain ⟨f, mids, last, rfl, _, hfn, hm, _, hln⟩ := wfBlock_parts h
  intro l hl
  rcases List.mem_cons.mp hl with rfl | hl'
  · exact (noNl_iff l).mp hfn
  · rcases List.mem_append.mp hl' with hl'' | hl''
    · exact (noNl_iff l).mp (midOKb_parts (hm l hl'')).2.2.2
    · rw [List.mem_singleton.mp hl'']
      exact (noNl_iff last).mp hln

theorem scan_mids {mids : List (List Char)} (hm : ∀ m ∈ mids, midOKb m = true) :
    ∀ rest blocks cur, cur ≠ [] →
      scan_blocks (mids ++ rest) blocks cur = scan_blocks rest blocks (cur ++ mids) := by
  induction mids with
  | nil => simp
  | cons m mids ih =>
    intro rest blocks cur hcur
    obtain ⟨h1, h2, h3, _⟩ := midOKb_parts (hm m (by simp))
    cases cur with
    | nil => exact absurd rfl hcur
    | cons c0 cur' =>
      rw [List.cons_append, scan_blocks, h1, h2, h3]
      simp only [Bool.false_eq_true, if_false, List.isEmpty_cons, Bool.not_false, if_true]
      rw [ih (fun x hx => hm x (List.mem_cons_of_mem _ hx)) rest blocks
        ((c0 :: cur') ++ [m]) (by simp)]
      simp [List.append_assoc]

theorem scan_block_consume {b : List (List Char)} (hb : wfBlock b = true) :
    ∀ rest blocks, scan_blocks (b ++ rest) blocks [] = scan_blocks rest (blocks ++ [b]) [] := by
  obtain ⟨f, mids, last, rfl, hinf, _, hmids, hcl, _⟩ := wfBlock_parts hb
  intro rest blocks
  rw [List.cons_append, scan_blocks, inf_not_header hinf, hinf]
  simp only [Bool.false_eq_true, if_false, if_true, List.isEmpty_nil]
  rw [List.append_assoc, scan_mids hmids ([last] ++ rest) blocks [f] (by simp)]
  rw [List.singleton_append, scan_blocks, closes_not_header hcl, closes_not_inf hcl, hcl]
  simp [List.singleton_append]

theorem scan_flatten {bs : List (List (List Char))}
    (h : ∀ b ∈ bs, wfBlock b = true) :
    ∀ blocks, scan_blocks bs.flatten blocks [] = blocks ++ bs := by
  induction bs with
  | nil => intro blocks; simp [scan_blocks]
  | cons b bs ih =>
    intro blocks
    rw [List.flatten_cons, scan_block_consume (h b (by simp)),
      ih (fun b' hb' => h b' (List.mem_cons_of_mem _ hb'))]
    simp

theorem parse_manifestText {h : List Char} {bs : List (List (List Char))}
    (hh : isHeaderL h = true) (hn : noNl h = true)
    (hwf : ∀ b ∈ bs, wfBlock b = true) :
    parse_blocks (manifestText h bs) = bs := by
  rw [parse_blocks, manifestText]
  rw [show (String.mk (joinNl (h :: bs.flatten))).data = joinNl (h :: bs.flatten) from rfl]
  rw [splitNl_joinNl (by simp) ?nonl]
  case nonl =>
    intro l hl
    rcases List.mem_cons.mp hl with rfl | hl'
    · exact (noNl_iff l).mp hn
    · obtain ⟨b, hb, hlb⟩ := List.mem_flatten.mp hl'
      exact wfBlock_noNl (hwf b hb) l hlb
  rw [scan_blocks, hh]
  simp only [if_true]
  exact scan_flatten hwf []

theorem reorder_manifestText {h : List Char} {bs : List (List (List Char))}
    (hh : isHeaderL h = true) (hn : noNl h = true)
    (hwf : ∀ b ∈ bs, wfBlock b = true) :
    reverse_hls_quality (manifestText h bs) = manifestText "#EXTM3U".data bs.reverse := by
  rw [reverse_hls_quality, parse_manifestText hh hn hwf, manifestText]

/-! ## Behaviour of the retry loop when every attempt fails -/

theorem retryLoop_all_fail {attempt : Nat → FetchRet} {kinds : Nat → String} (d : Nat) :
    ∀ rem n made lastErr ds, 2 ≤ n →
      (∀ k, n ≤ k → k < n + rem → attempt k = .pair none (some (kinds k))) →
      retryLoop d attempt rem n made lastErr ds =
        .ok ⟨none, if rem = 0 then lastErr else some (kinds (n + rem - 1)), made + rem,
          ds ++ (List.range rem).map (fun i => d * 2 ^ (n + i - 2))⟩ := by
  intro rem
  induction rem with
  | zero => intro n made lastErr ds _ _; simp [retryLoop]
  | succ rem ih =>
    intro n made lastErr ds hn hf
    rw [retryLoop]
    rw [if_pos (by omega : 1 < n)]
    rw [hf n (le_refl n) (by omega)]
    show retryLoop d attempt rem (n + 1) (made + 1) (some (kinds n))
      (ds ++ [d * 2 ^ (n - 2)]) = _
    rw [ih (n + 1) (made + 1) (some (kinds n)) _ (by omega)
      (fun k hk1 hk2 => hf k (by omega) (by omega))]
    have hmade : made + 1 + rem = made + (rem + 1) := by omega
    have hds : (ds ++ [d * 2 ^ (n - 2)]) ++
          (List.range rem).map (fun i => d * 2 ^ (n + 1 + i - 2)) =
        ds ++ (List.range (rem + 1)).map (fun i => d * 2 ^ (n + i - 2)) := by
      rw [List.append_assoc]
      congr 1
      rw [List.range_succ_eq_map, List.map_cons, List.map_map, List.singleton_append]
      congr 1
      apply List.map_congr_left
      intro i _
      rw [Function.comp_apply]
      have : n + Nat.succ i - 2 = n + 1 + i - 2 := by omega
      rw [this]
    rw [hmade, hds]
    cases rem with
    | zero => simp
    | succ r =>
      have : n + 1 + (r + 1) - 1 = n + (r + 1 + 1) - 1 := by omega
      simp only [Nat.succ_ne_zero, if_false, this]

theorem retry_all_fail {attempt : Nat → FetchRet} {kinds : Nat → String}
    {mr d : Nat} (h1 : 1 ≤ mr)
    (hf : ∀ n, 1 ≤ n → n ≤ mr → attempt n = .pair none (some (kinds n))) :
    fetch_stream_url_with_retry mr d attempt =
      .ok ⟨none, some (kinds mr), mr, (List.range (mr - 1)).map (fun i => d * 2 ^ i)⟩ := by
  obtain ⟨m, rfl⟩ : ∃ m, mr = m + 1 := ⟨mr - 1, by omega⟩
  rw [fetch_stream_url_with_retry, retryLoop]
  rw [if_neg (by omega : ¬ 1 < 1)]
  rw [hf 1 (by omega) (by omega)]
  show retryLoop d attempt m (1 + 1) (0 + 1) (some (kinds 1)) [] = _
  rw [retryLoop_all_fail d m (1 + 1) (0 + 1) (some (kinds 1)) [] (by omega)
    (fun k hk1 hk2 => hf k (by omega) (by omega))]
  have hmade : 0 + 1 + m = m + 1 := by omega
  have hds : ([] : List Nat) ++ (List.range m).map (fun i => d * 2 ^ (1 + 1 + i - 2)) =
      (List.range (m + 1 - 1)).map (fun i => d * 2 ^ i) := by
    rw [List.nil_append]
    have hms : m + 1 - 1 = m := by omega
    rw [hms]
    apply List.map_congr_left
    intro i _
    have : 1 + 1 + i - 2 = i := by omega
    rw [this]
  rw [hmade, hds]
  cases m with
  | zero => simp
  | succ r =>
    have : 1 + 1 + (r + 1) - 1 = r + 1 + 1 := by omega
    simp only [Nat.succ_ne_zero, if_false, this]

theorem delays_pairwise {d : Nat} (m : Nat) (hd : 1 ≤ d) :
    List.Chain' (· < ·) ((List.range m).map (fun i => d * 2 ^ i)) := by
  apply List.Pairwise.chain'
  rw [List.pairwise_map]
  refine (List.pairwise_lt_range m).imp ?_
  intro a b hab
  exact Nat.mul_lt_mul_of_pos_left (Nat.pow_lt_pow_right (by omega) hab) (by omega)

/-! ## Helper lemmas about the fetcher, writer and driver -/

theorem fetch_unknown {endpoint idv : String} {csAvail : Bool}
    {T : Nat → String → GetResult} {ty : Option String}
    (hq : query_param_of (ty.getD "channel") = none) :
    fetch_stream_url endpoint csAvail T ty idv = ⟨.bare, []⟩ := by
  unfold fetch_stream_url
  rw [hq]

theorem fetch_known {endpoint idv qp : String} {csAvail : Bool}
    {T : Nat → String → GetResult} {ty : Option String}
    (hq : query_param_of (ty.getD "channel") = some qp) :
    fetch_stream_url endpoint csAvail T ty idv =
      http_attempt csAvail T (endpoint ++ "/yt.php?" ++ qp ++ "=" ++ idv) := by
  unfold fetch_stream_url
  rw [hq]

theorem http_attempt_requests (T : Nat → String → GetResult) (url : String) :
    (http_attempt true T url).requests = [url] := by
  unfold http_attempt
  cases T 0 url with
  | raise e => rfl
  | resp st reason body =>
    dsimp only
    by_cases h4 : 400 ≤ st ∧ st < 600
    · rw [if_pos h4]
    · rw [if_neg h4]
      rfl

theorem http_attempt_2xx_cs {st : Nat} (T : Nat → String → GetResult)
    (url reason body : String) (hst : st < 400)
    (htr : T 0 url = .resp st reason body) :
    http_attempt true T url = ⟨classify_content body, [url]⟩ := by
  unfold http_attempt
  rw [htr]
  dsimp only
  rw [if_neg (by omega)]
  rfl

theorem classify_content_eq (body : String) :
    (pyIn "#EXTM3U" (String.mk (body.data.take 200)) = true →
      classify_content body = .pair (some body) none) ∧
    (pyIn "#EXTM3U" (String.mk (body.data.take 200)) = false →
      pyIn "<html" (pyLower (String.mk (body.data.take 200))) = true →
      classify_content body = .pair none (some "HTMLResponse")) ∧
    (pyIn "#EXTM3U" (String.mk (body.data.take 200)) = false →
      pyIn "<html" (pyLower (String.mk (body.data.take 200))) = false →
      classify_content body = .pair (some body) none) := by
  refine ⟨fun h1 => ?_, fun h1 h2 => ?_, fun h1 h2 => ?_⟩
  · unfold classify_content
    dsimp only
    rw [h1]
    rfl
  · unfold classify_content
    dsimp only
    rw [h1, h2]
    rfl
  · unfold classify_content
    dsimp only
    rw [h1, h2]
    rfl

theorem fetch_empty_success {endpoint idv : String} {csAvail : Bool}
    {T : Nat → String → GetResult} {ty : Option String}
    (sa : String → Nat) (rs : String → String)
    (hty : ty.getD "channel" = "video" ∨ ty.getD "channel" = "channel")
    (htr : ∀ r u, T r u = .resp (sa u) (rs u) "")
    (h2xx : ∀ u, sa u < 400) :
    (fetch_stream_url endpoint csAvail T ty idv).ret = .pair (some "") none := by
  obtain ⟨qp, hq⟩ : ∃ qp, query_param_of (ty.getD "channel") = some qp := by
    rcases hty with h | h <;> rw [h] <;> exact ⟨_, rfl⟩
  rw [fetch_known hq]
  unfold http_attempt
  rw [htr 0 _]
  dsimp only
  rw [if_neg (by have := h2xx (endpoint ++ "/yt.php?" ++ qp ++ "=" ++ idv); omega)]
  cases csAvail with
  | true => rfl
  | false => rfl

theorem retry_first_success {attempt : Nat → FetchRet} {mr d : Nat} {s : String}
    {e : Option String} (h1 : 1 ≤ mr) (h : attempt 1 = .pair (some s) e) :
    fetch_stream_url_with_retry mr d attempt = .ok ⟨some s, none, 1, []⟩ := by
  obtain ⟨m, rfl⟩ : ∃ m, mr = m + 1 := ⟨mr - 1, by omega⟩
  rw [fetch_stream_url_with_retry, retryLoop, if_neg (by omega : ¬ 1 < 1), h]

theorem delete_old_file_clears (folder subfolder slug : String) (fs : FS)
    (h : fs.unlinkFails = false) :
    (delete_old_file folder subfolder slug fs).2.files
      (get_output_path folder subfolder slug) = none := by
  unfold delete_old_file
  dsimp only
  cases hp : fs.files (get_output_path folder subfolder slug) with
  | none =>
    rw [hp]
  | some c =>
    rw [h]
    simp

theorem bump_self (m : String → Nat) (k : String) : bump m k k = m k + 1 := by
  simp [bump]

theorem bump_other (m : String → Nat) (k k' : String) (h : k' ≠ k) :
    bump m k k' = m k' := by
  simp [bump, h]

theorem fail_branch_eq (folder subfolder slug : String) (e : Option String)
    (st : BatchState) :
    fail_branch folder subfolder slug e st =
      record_error ⟨st.total_success, st.total_fail + 1, st.error_summary,
        (delete_old_file folder subfolder slug st.fs).2⟩ e := rfl

theorem record_error_fields (st : BatchState) (e : Option String) :
    (record_error st e).total_success = st.total_success ∧
    (record_error st e).total_fail = st.total_fail ∧
    (record_error st e).fs = st.fs := by
  cases e with
  | none => exact ⟨rfl, rfl, rfl⟩
  | some k =>
    by_cases hk : k ≠ "" <;> simp [record_error, hk]

theorem record_error_summary_some (st : BatchState) (k : String) (hk : k ≠ "") :
    (record_error st (some k)).error_summary = bump st.error_summary k := by
  simp [record_error, hk]

/-! ## Claim theorems -/

/-- Claim C6: applying the quality-reordering transform to the happy-path
manifest (with trailing newline) yields exactly the expected text without a
trailing newline; the Writer persists exactly that text at
`streams/mychannel.m3u8`, and the driver counts the descriptor as one
success. -/
theorem C6_happy_path :
    reverse_hls_quality happyInput = happyOutput ∧
    (save_stream "streams" "" "mychannel" happyInput fs0).map
        (fun r => (r.1, r.2.files "streams/mychannel.m3u8")) =
      .ok (true, some happyOutput) ∧
    (process_stream "streams" "" "mychannel" 3 2
        (fun _ => (fetch_stream_url defaultEndpoint true
          (fun _ _ => .resp 200 "OK" happyInput) (some "channel") "abc").ret) st0).map
        (fun s => (s.total_success, s.total_fail, s.fs.files "streams/mychannel.m3u8")) =
      .ok (1, 0, some happyOutput) :=
  ⟨rfl, rfl, rfl⟩

/-- Claim C8, counterexample: a line preceding the first stream-info marker
(`#EXT-X-VERSION:3`, a non-header line) occurs once in the input and is lost
from the output, so the transform does not preserve the multiset of
non-header lines on inputs with lines outside blocks. -/
theorem C8_counterexample :
    reverse_hls_quality "#EXTM3U\n#EXT-X-VERSION:3\n#EXT-X-STREAM-INF:BANDWIDTH=100\nlow.m3u8" =
      "#EXTM3U\n#EXT-X-STREAM-INF:BANDWIDTH=100\nlow.m3u8" ∧
    (splitNl "#EXTM3U\n#EXT-X-VERSION:3\n#EXT-X-STREAM-INF:BANDWIDTH=100\nlow.m3u8".data).count
      "#EXT-X-VERSION:3".data = 1 ∧
    (splitNl (reverse_hls_quality
        "#EXTM3U\n#EXT-X-VERSION:3\n#EXT-X-STREAM-INF:BANDWIDTH=100\nlow.m3u8").data).count
      "#EXT-X-VERSION:3".data = 0 := by
  decide

/-- Claim C2, counterexample: a descriptor of type `playlist` is not mapped
to a `p` query parameter, and a descriptor of type `livestream` does not fall
back to a `c`-style request: in both cases `fetch_stream_url` issues no
request at all and returns the bare `None` of line 108. -/
theorem C2_counterexample :
    fetch_stream_url defaultEndpoint true
        (fun _ _ => .resp 200 "OK" happyInput) (some "playlist") "abc" = ⟨.bare, []⟩ ∧
    fetch_stream_url defaultEndpoint true
        (fun _ _ => .resp 200 "OK" happyInput) (some "livestream") "abc" = ⟨.bare, []⟩ :=
  ⟨rfl, rfl⟩

/-- Claim C5, counterexample: a 2xx body that contains neither the manifest
header marker nor an HTML tag (`"not a manifest"`) is returned as a success
carrying the body with no error kind — not as `Failure(InvalidContent)`. -/
theorem C5_counterexample :
    (fetch_stream_url defaultEndpoint true
        (fun _ _ => .resp 200 "OK" "not a manifest") (some "channel") "abc").ret =
      .pair (some "not a manifest") none :=
  rfl

/-- Claim C9, counterexample: when every attempt fails with HTTP 403, the
waits before attempts 2 and 3 are the exponential-backoff delays 2s and 4s
(with the default base delay 2), not a fixed 10-second cooldown. -/
theorem C9_counterexample :
    fetch_stream_url_with_retry 3 2
        (fun _ => (fetch_stream_url defaultEndpoint true
          (fun _ _ => .resp 403 "Forbidden" "") (some "channel") "abc").ret) =
      .ok ⟨none, some "HTTPError-403", 3, [2, 4]⟩ ∧ (2 : Nat) ≠ 10 :=
  ⟨rfl, by decide⟩

/-- Claim C3: for a descriptor whose every fetch attempt fails, the retry
wrapper performs exactly `maxRetries` attempts, returns the failure kind of
the last attempt, and the wait between attempt `n` and `n+1` is
`retryDelay * 2 ^ (n - 1)` seconds; with a positive base delay the delays
strictly increase between consecutive attempts. -/
theorem C3_retry_policy (mr d : Nat) (attempt : Nat → FetchRet) (kinds : Nat → String)
    (h1 : 1 ≤ mr)
    (hf : ∀ n, 1 ≤ n → n ≤ mr → attempt n = .pair none (some (kinds n))) :
    fetch_stream_url_with_retry mr d attempt =
      .ok ⟨none, some (kinds mr), mr, (List.range (mr - 1)).map (fun i => d * 2 ^ i)⟩ ∧
    (1 ≤ d → List.Chain' (· < ·) ((List.range (mr - 1)).map (fun i => d * 2 ^ i))) :=
  ⟨retry_all_fail h1 hf, fun hd => delays_pairwise (mr - 1) hd⟩

/-- Witness for C3 at `maxRetries = 3`, `retryDelay = 2`, all attempts
failing with `ConnectionError`: exactly 3 attempts, kind `ConnectionError`,
delays 2s then 4s, strictly increasing. -/
theorem C3_witness :
    fetch_stream_url_with_retry 3 2 (fun _ => .pair none (some "ConnectionError")) =
      .ok ⟨none, some "ConnectionError", 3, [2, 4]⟩ ∧
    List.Chain' (· < ·) [2, 4] := by
  have h := C3_retry_policy 3 2 (fun _ => .pair none (some "ConnectionError"))
    (fun _ => "ConnectionError") (by omega) (fun n _ _ => rfl)
  refine ⟨?_, ?_⟩
  · rw [h.1]
    rfl
  · exact h.2 (by omega)

/-- Claim C9, amended: there is no special 403/429 cooldown — for a run whose
every attempt fails, the delay schedule is the exponential one, whatever the
observed failure kinds are (in particular for `HTTPError-403`). -/
theorem C9_amended_schedule (mr d : Nat) (attempt : Nat → FetchRet) (kinds : Nat → String)
    (h1 : 1 ≤ mr)
    (hf : ∀ n, 1 ≤ n → n ≤ mr → attempt n = .pair none (some (kinds n))) :
    ∃ out, fetch_stream_url_with_retry mr d attempt = .ok out ∧
      out.delays = (List.range (mr - 1)).map (fun i => d * 2 ^ i) :=
  ⟨_, retry_all_fail h1 hf, rfl⟩

/-- Witness for the amended C9: three 403-failing attempts produce the
exponential delays 2s, 4s. -/
theorem C9_witness :
    (fetch_stream_url_with_retry 3 2 (fun _ => .pair none (some "HTTPError-403"))).map
      (fun o => o.delays) = .ok [2, 4] := by
  obtain ⟨out, h1, h2⟩ := C9_amended_schedule 3 2
    (fun _ => .pair none (some "HTTPError-403")) (fun _ => "HTTPError-403")
    (by omega) (fun n _ _ => rfl)
  rw [h1]
  show Except.ok out.delays = _
  rw [h2]
  rfl

/-- Claim C7: on a manifest made of a header line followed by well-formed
stream-info blocks, reordering twice restores the original block order with
identical line content (the text itself is restored up to header
normalization), and reordering a single-block manifest is the identity
beyond header normalization. -/
theorem C7_involution (h : List Char) (bs : List (List (List Char)))
    (hh : isHeaderL h = true) (hn : noNl h = true)
    (hwf : ∀ b ∈ bs, wfBlock b = true) :
    reverse_hls_quality (reverse_hls_quality (manifestText h bs)) =
      manifestText "#EXTM3U".data bs ∧
    parse_blocks (reverse_hls_quality (reverse_hls_quality (manifestText h bs))) = bs ∧
    (bs.length = 1 →
      reverse_hls_quality (manifestText h bs) = manifestText "#EXTM3U".data bs) := by
  have hwfr : ∀ b ∈ bs.reverse, wfBlock b = true :=
    fun b hb => hwf b (List.mem_reverse.mp hb)
  have hdrH : isHeaderL "#EXTM3U".data = true := by decide
  have hdrN : noNl "#EXTM3U".data = true := by decide
  have h1 := reorder_manifestText hh hn hwf
  have h2 := reorder_manifestText hdrH hdrN hwfr
  refine ⟨?_, ?_, ?_⟩
  · rw [h1, h2, List.reverse_reverse]
  · rw [h1, h2, List.reverse_reverse]
    exact parse_manifestText hdrH hdrN hwf
  · intro hlen
    obtain ⟨b, rfl⟩ := List.length_eq_one.mp hlen
    rw [h1]
    rfl

/-- Witness for C7 on a concrete single-block manifest: reordering twice is
the identity, the parsed block is unchanged, and one reordering is already a
no-op. -/
theorem C7_witness :
    reverse_hls_quality (reverse_hls_quality (manifestText "#EXTM3U".data
        [["#EXT-X-STREAM-INF:BANDWIDTH=100".data, "low.m3u8".data]])) =
      manifestText "#EXTM3U".data
        [["#EXT-X-STREAM-INF:BANDWIDTH=100".data, "low.m3u8".data]] ∧
    parse_blocks (reverse_hls_quality (reverse_hls_quality (manifestText "#EXTM3U".data
        [["#EXT-X-STREAM-INF:BANDWIDTH=100".data, "low.m3u8".data]]))) =
      [["#EXT-X-STREAM-INF:BANDWIDTH=100".data, "low.m3u8".data]] ∧
    reverse_hls_quality (manifestText "#EXTM3U".data
        [["#EXT-X-STREAM-INF:BANDWIDTH=100".data, "low.m3u8".data]]) =
      manifestText "#EXTM3U".data
        [["#EXT-X-STREAM-INF:BANDWIDTH=100".data, "low.m3u8".data]] := by
  have h := C7_involution "#EXTM3U".data
    [["#EXT-X-STREAM-INF:BANDWIDTH=100".data, "low.m3u8".data]]
    (by decide) (by decide) (by decide)
  exact ⟨h.1, h.2.1, h.2.2 rfl⟩

/-- Claim C8, amended: on a manifest that is exactly a header line followed
by well-formed stream-info blocks, the output's lines are a permutation of
one header line plus all block lines (the original header occurrence being
replaced by the canonical one), block-internal line order is preserved
verbatim, and only the block order inverts.  Lines outside any block are not
covered: the scanner drops them (see the counterexample). -/
theorem C8_amended_multiset (h : List Char) (bs : List (List (List Char)))
    (hh : isHeaderL h = true) (hn : noNl h = true)
    (hwf : ∀ b ∈ bs, wfBlock b = true) :
    splitNl (manifestText h bs).data = h :: bs.flatten ∧
    (splitNl (reverse_hls_quality (manifestText h bs)).data).Perm
      ("#EXTM3U".data :: bs.flatten) ∧
    parse_blocks (reverse_hls_quality (manifestText h bs)) = bs.reverse := by
  have hdrH : isHeaderL "#EXTM3U".data = true := by decide
  have hdrN : noNl "#EXTM3U".data = true := by decide
  have hwfr : ∀ b ∈ bs.reverse, wfBlock b = true :=
    fun b hb => hwf b (List.mem_reverse.mp hb)
  have hnl : ∀ l ∈ h :: bs.flatten, '\n' ∉ l := by
    intro l hl
    rcases List.mem_cons.mp hl with rfl | hl'
    · exact (noNl_iff _).mp hn
    · obtain ⟨b, hb, hlb⟩ := List.mem_flatten.mp hl'
      exact wfBlock_noNl (hwf b hb) l hlb
  have hnlr : ∀ l ∈ "#EXTM3U".data :: bs.reverse.flatten, '\n' ∉ l := by
    intro l hl
    rcases List.mem_cons.mp hl with rfl | hl'
    · exact (noNl_iff _).mp hdrN
    · obtain ⟨b, hb, hlb⟩ := List.mem_flatten.mp hl'
      exact wfBlock_noNl (hwfr b hb) l hlb
  refine ⟨?_, ?_, ?_⟩
  · rw [manifestText]
    exact splitNl_joinNl (by simp) hnl
  · rw [reorder_manifestText hh hn hwf, manifestText]
    rw [show (String.mk (joinNl ("#EXTM3U".data :: bs.reverse.flatten))).data =
      joinNl ("#EXTM3U".data :: bs.reverse.flatten) from rfl]
    rw [splitNl_joinNl (by simp) hnlr]
    exact List.Perm.cons _ ((List.reverse_perm bs).flatten)
  · rw [reorder_manifestText hh hn hwf]
    exact parse_manifestText hdrH hdrN hwfr

/-- Witness for the amended C8 on a concrete two-block manifest. -/
theorem C8_witness :
    splitNl (manifestText "#EXTM3U".data
        [["#EXT-X-STREAM-INF:BANDWIDTH=100".data, "low.m3u8".data],
         ["#EXT-X-STREAM-INF:BANDWIDTH=900".data, "high.m3u8".data]]).data =
      "#EXTM3U".data :: ["#EXT-X-STREAM-INF:BANDWIDTH=100".data, "low.m3u8".data,
        "#EXT-X-STREAM-INF:BANDWIDTH=900".data, "high.m3u8".data] ∧
    (splitNl (reverse_hls_quality (manifestText "#EXTM3U".data
        [["#EXT-X-STREAM-INF:BANDWIDTH=100".data, "low.m3u8".data],
         ["#EXT-X-STREAM-INF:BANDWIDTH=900".data, "high.m3u8".data]])).data).Perm
      ("#EXTM3U".data :: ["#EXT-X-STREAM-INF:BANDWIDTH=100".data, "low.m3u8".data,
        "#EXT-X-STREAM-INF:BANDWIDTH=900".data, "high.m3u8".data]) ∧
    parse_blocks (reverse_hls_quality (manifestText "#EXTM3U".data
        [["#EXT-X-STREAM-INF:BANDWIDTH=100".data, "low.m3u8".data],
         ["#EXT-X-STREAM-INF:BANDWIDTH=900".data, "high.m3u8".data]])) =
      [["#EXT-X-STREAM-INF:BANDWIDTH=900".data, "high.m3u8".data],
       ["#EXT-X-STREAM-INF:BANDWIDTH=100".data, "low.m3u8".data]] := by
  have h := C8_amended_multiset "#EXTM3U".data
    [["#EXT-X-STREAM-INF:BANDWIDTH=100".data, "low.m3u8".data],
     ["#EXT-X-STREAM-INF:BANDWIDTH=900".data, "high.m3u8".data]]
    (by decide) (by decide) (by decide)
  exact ⟨h.1, h.2.1, h.2.2⟩

/-- Claim C1: two uncaught-crash paths contradict the propagation policy.
A descriptor with the unrecognized type `livestream` makes `fetch_stream_url`
return a bare `None` (line 108) which the retry wrapper unpacks (line 83),
raising `TypeError` and aborting the whole batch including the subsequent
well-formed descriptor; and a directory-creation failure in `save_stream`
(line 332, outside the `try`) escapes as an uncaught `OSError` instead of a
per-descriptor failure signal. -/
theorem C1_crash_paths :
    run_streams "streams" 3 2
        [⟨"", "livestream1", fun _ => (fetch_stream_url defaultEndpoint true
            (fun _ _ => .resp 200 "OK" happyInput) (some "livestream") "abc").ret⟩,
         ⟨"", "mychannel", fun _ => (fetch_stream_url defaultEndpoint true
            (fun _ _ => .resp 200 "OK" happyInput) (some "channel") "abc").ret⟩] st0 =
      .error .typeError ∧
    save_stream "streams" "" "mychannel" happyInput ⟨fun _ => none, true, false, false⟩ =
      .error .osError ∧
    process_stream "streams" "" "mychannel" 3 2
        (fun _ => (fetch_stream_url defaultEndpoint true
          (fun _ _ => .resp 200 "OK" happyInput) (some "channel") "abc").ret)
        ⟨0, 0, fun _ => 0, ⟨fun _ => none, true, false, false⟩⟩ =
      .error .osError :=
  ⟨rfl, rfl, rfl⟩

/-- Claim C2, amended: the Fetcher maps `video` to the `v` parameter and
`channel` (explicit or defaulted) to the `c` parameter of a single request to
`{endpoint}/yt.php`; any other type — `playlist` and `livestream` included —
is rejected in the `else` branch: no request is issued, there is no fallback
to `c`, and the function returns the bare `None` of line 108 (which crashes
the caller, see C1). -/
theorem C2_amended_mapping (endpoint idv : String) (T : Nat → String → GetResult)
    (ty : Option String) :
    (ty.getD "channel" = "video" →
      (fetch_stream_url endpoint true T ty idv).requests =
        [endpoint ++ "/yt.php?" ++ "v" ++ "=" ++ idv]) ∧
    (ty.getD "channel" = "channel" →
      (fetch_stream_url endpoint true T ty idv).requests =
        [endpoint ++ "/yt.php?" ++ "c" ++ "=" ++ idv]) ∧
    (ty.getD "channel" ≠ "video" → ty.getD "channel" ≠ "channel" →
      fetch_stream_url endpoint true T ty idv = ⟨.bare, []⟩) := by
  refine ⟨fun hty => ?_, fun hty => ?_, fun h1 h2 => ?_⟩
  · rw [fetch_known (show query_param_of (ty.getD "channel") = some "v" by rw [hty]; rfl)]
    exact http_attempt_requests T _
  · rw [fetch_known (show query_param_of (ty.getD "channel") = some "c" by rw [hty]; rfl)]
    exact http_attempt_requests T _
  · refine fetch_unknown ?_
    unfold query_param_of
    rw [if_neg h1, if_neg h2]

/-- Witness for the amended C2: concrete `video`, defaulted-`channel` and
`livestream` descriptors. -/
theorem C2_witness :
    (fetch_stream_url defaultEndpoint true
        (fun _ _ => .resp 200 "OK" happyInput) (some "video") "abc").requests =
      [defaultEndpoint ++ "/yt.php?" ++ "v" ++ "=" ++ "abc"] ∧
    (fetch_stream_url defaultEndpoint true
        (fun _ _ => .resp 200 "OK" happyInput) none "abc").requests =
      [defaultEndpoint ++ "/yt.php?" ++ "c" ++ "=" ++ "abc"] ∧
    fetch_stream_url defaultEndpoint true
        (fun _ _ => .resp 200 "OK" happyInput) (some "livestream") "abc" = ⟨.bare, []⟩ := by
  refine ⟨?_, ?_, ?_⟩
  · exact (C2_amended_mapping defaultEndpoint "abc"
      (fun _ _ => .resp 200 "OK" happyInput) (some "video")).1 rfl
  · exact (C2_amended_mapping defaultEndpoint "abc"
      (fun _ _ => .resp 200 "OK" happyInput) none).2.1 rfl
  · exact (C2_amended_mapping defaultEndpoint "abc"
      (fun _ _ => .resp 200 "OK" happyInput) (some "livestream")).2.2
      (by decide) (by decide)

/-- Claim C5, amended: for a non-error response, the content check of lines
170-183 is: a body whose first 200 characters contain `#EXTM3U` is returned
as success; otherwise a body whose first 200 characters contain `<html`
(case-insensitively) fails with kind `HTMLResponse` (there is no
`ChallengePage` kind and challenge markers are not consulted here); and any
other body — neither manifest nor HTML — is also returned as success with a
logged warning, not as an `InvalidContent` failure. -/
theorem C5_amended_classification (endpoint idv reason body : String)
    (ty : Option String) (st : Nat)
    (hty : ty.getD "channel" = "channel") (hst : st < 400) :
    (pyIn "#EXTM3U" (String.mk (body.data.take 200)) = true →
      (fetch_stream_url endpoint true (fun _ _ => .resp st reason body) ty idv).ret =
        .pair (some body) none) ∧
    (pyIn "#EXTM3U" (String.mk (body.data.take 200)) = false →
      pyIn "<html" (pyLower (String.mk (body.data.take 200))) = true →
      (fetch_stream_url endpoint true (fun _ _ => .resp st reason body) ty idv).ret =
        .pair none (some "HTMLResponse")) ∧
    (pyIn "#EXTM3U" (String.mk (body.data.take 200)) = false →
      pyIn "<html" (pyLower (String.mk (body.data.take 200))) = false →
      (fetch_stream_url endpoint true (fun _ _ => .resp st reason body) ty idv).ret =
        .pair (some body) none) := by
  have hf : fetch_stream_url endpoint true (fun _ _ => .resp st reason body) ty idv =
      ⟨classify_content body, [endpoint ++ "/yt.php?" ++ "c" ++ "=" ++ idv]⟩ := by
    rw [fetch_known (show query_param_of (ty.getD "channel") = some "c" by rw [hty]; rfl)]
    exact http_attempt_2xx_cs _ _ reason body hst rfl
  rw [hf]
  exact classify_content_eq body

/-- Witness for the amended C5 at three concrete bodies: a manifest, an HTML
page, and a body that is neither. -/
theorem C5_witness :
    (fetch_stream_url defaultEndpoint true
        (fun _ _ => .resp 200 "OK" "#EXTM3U\nx.m3u8") (some "channel") "abc").ret =
      .pair (some "#EXTM3U\nx.m3u8") none ∧
    (fetch_stream_url defaultEndpoint true
        (fun _ _ => .resp 200 "OK" "<HTML><body>challenge</body></HTML>")
        (some "channel") "abc").ret = .pair none (some "HTMLResponse") ∧
    (fetch_stream_url defaultEndpoint true
        (fun _ _ => .resp 200 "OK" "just some text") (some "channel") "abc").ret =
      .pair (some "just some text") none := by
  refine ⟨?_, ?_, ?_⟩
  · exact (C5_amended_classification defaultEndpoint "abc" "OK" "#EXTM3U\nx.m3u8"
      (some "channel") 200 rfl (by omega)).1 (by decide)
  · exact (C5_amended_classification defaultEndpoint "abc" "OK"
      "<HTML><body>challenge</body></HTML>" (some "channel") 200 rfl (by omega)).2.1
      (by decide) (by decide)
  · exact (C5_amended_classification defaultEndpoint "abc" "OK" "just some text"
      (some "channel") 200 rfl (by omega)).2.2 (by decide) (by decide)

/-- Claim C4: per-descriptor accounting of the driver.  When the fetch is
exhausted with a failure kind, `failCount` is incremented, the stale artifact
at the computed path is removed, and exactly one histogram entry is recorded
for that kind (independently of the number of attempts); when the write
fails, the same happens under the `SaveError` kind; when the descriptor
succeeds, `successCount` is incremented and the artifact at the computed path
contains exactly the transformed manifest text. -/
theorem C4_driver_accounting (folder subfolder slug : String) (mr d : Nat)
    (attempt : Nat → FetchRet) (st : BatchState) (out : RetryOut)
    (hret : fetch_stream_url_with_retry mr d attempt = .ok out)
    (hunlink : st.fs.unlinkFails = false) :
    (∀ k, out.result = none → out.errType = some k → k ≠ "" →
      ∃ st', process_stream folder subfolder slug mr d attempt st = .ok st' ∧
        st'.total_fail = st.total_fail + 1 ∧
        st'.total_success = st.total_success ∧
        st'.fs.files (get_output_path folder subfolder slug) = none ∧
        st'.error_summary k = st.error_summary k + 1 ∧
        ∀ k', k' ≠ k → st'.error_summary k' = st.error_summary k') ∧
    (∀ content, out.result = some content → content ≠ "" →
      st.fs.mkdirFails = false → st.fs.writeFails = true →
      ∃ st', process_stream folder subfolder slug mr d attempt st = .ok st' ∧
        st'.total_fail = st.total_fail + 1 ∧
        st'.total_success = st.total_success ∧
        st'.fs.files (get_output_path folder subfolder slug) = none ∧
        st'.error_summary "SaveError" = st.error_summary "SaveError" + 1 ∧
        ∀ k', k' ≠ "SaveError" → st'.error_summary k' = st.error_summary k') ∧
    (∀ content, out.result = some content → content ≠ "" →
      st.fs.mkdirFails = false → st.fs.writeFails = false →
      ∃ st', process_stream folder subfolder slug mr d attempt st = .ok st' ∧
        st'.total_success = st.total_success + 1 ∧
        st'.total_fail = st.total_fail ∧
        st'.fs.files (get_output_path folder subfolder slug) =
          some (reverse_hls_quality content) ∧
        st'.error_summary = st.error_summary) := by
  refine ⟨fun k hres herr hk => ?_, fun content hres hcne hmk hwr => ?_,
    fun content hres hcne hmk hwr => ?_⟩
  · refine ⟨fail_branch folder subfolder slug out.errType st, ?_, ?_, ?_, ?_, ?_, ?_⟩
    · unfold process_stream
      rw [hret]
      dsimp only
      rw [hres]
    · rw [fail_branch_eq, (record_error_fields _ _).2.1]
    · rw [fail_branch_eq, (record_error_fields _ _).1]
    · rw [fail_branch_eq, (record_error_fields _ _).2.2]
      exact delete_old_file_clears folder subfolder slug st.fs hunlink
    · rw [fail_branch_eq, herr, record_error_summary_some _ k hk]
      exact bump_self _ _
    · intro k' hk'
      rw [fail_branch_eq, herr, record_error_summary_some _ k hk]
      exact bump_other _ _ _ hk'
  · have hsave : save_stream folder subfolder slug content st.fs = .ok (false, st.fs) := by
      unfold save_stream
      rw [hmk, hwr]
      rfl
    refine ⟨⟨st.total_success, st.total_fail + 1, bump st.error_summary "SaveError",
      (delete_old_file folder subfolder slug st.fs).2⟩, ?_, rfl, rfl, ?_, ?_, ?_⟩
    · unfold process_stream
      rw [hret]
      dsimp only
      rw [hres]
      dsimp only
      rw [if_pos hcne, hsave]
    · exact delete_old_file_clears folder subfolder slug st.fs hunlink
    · show bump st.error_summary "SaveError" "SaveError" = st.error_summary "SaveError" + 1
      exact bump_self _ _
    · intro k' hk'
      show bump st.error_summary "SaveError" k' = st.error_summary k'
      exact bump_other _ _ _ hk'
  · have hsave : save_stream folder subfolder slug content st.fs =
        .ok (true, ⟨fun q => if q = get_output_path folder subfolder slug then some (reverse_hls_quality content) else st.fs.files q, st.fs.mkdirFails, st.fs.writeFails, st.fs.unlinkFails⟩) := by
      unfold save_stream
      rw [hmk, hwr]
      rfl
    refine ⟨⟨st.total_success + 1, st.total_fail, st.error_summary,
      ⟨fun q => if q = get_output_path folder subfolder slug then some (reverse_hls_quality content) else st.fs.files q, st.fs.mkdirFails, st.fs.writeFails, st.fs.unlinkFails⟩⟩,
      ?_, rfl, rfl, ?_, rfl⟩
    · unfold process_stream
      rw [hret]
      dsimp only
      rw [hres]
      dsimp only
      rw [if_pos hcne, hsave]
    · simp

/-- Witness for C4 on the fetch-exhausted branch: a descriptor whose fetch
always fails with `Timeout` is counted as one failure, its stale artifact is
deleted, and exactly one `Timeout` histogram entry is recorded. -/
theorem C4_witness :
    (process_stream "streams" "" "mychannel" 3 2
        (fun _ => .pair none (some "Timeout")) stOld).map
      (fun s => (s.total_fail, s.total_success,
        s.fs.files (get_output_path "streams" "" "mychannel"),
        s.error_summary "Timeout", s.error_summary "ConnectionError")) =
      .ok (1, 0, none, 1, 0) := by
  obtain ⟨st', h1, h2, h3, h4, h5, h6⟩ :=
    (C4_driver_accounting "streams" "" "mychannel" 3 2
      (fun _ => .pair none (some "Timeout")) stOld
      ⟨none, some "Timeout", 3, [2, 4]⟩ rfl rfl).1 "Timeout" rfl rfl (by decide)
  rw [h1]
  show Except.ok (st'.total_fail, st'.total_success,
    st'.fs.files (get_output_path "streams" "" "mychannel"),
    st'.error_summary "Timeout", st'.error_summary "ConnectionError") = _
  rw [h2, h3, h4, h5, h6 "ConnectionError" (by decide)]
  rfl

/-- Claim C10: when every attempt's response is 2xx with an empty body, the
fetch pipeline returns the empty text with no error kind (on the very first
attempt, since the empty string is not `None`); the driver's truthiness test
then counts the descriptor as a failure, deletes any existing artifact, but
records nothing in the error histogram. -/
theorem C10_empty_body (endpoint folder subfolder slug idv : String) (mr d : Nat)
    (csAvail : Bool) (T : Nat → Nat → String → GetResult) (ty : Option String)
    (sa : Nat → String → Nat) (rs : Nat → String → String) (st : BatchState)
    (hty : ty.getD "channel" = "video" ∨ ty.getD "channel" = "channel")
    (htr : ∀ a r u, T a r u = .resp (sa a u) (rs a u) "")
    (h2xx : ∀ a u, sa a u < 400)
    (h1 : 1 ≤ mr) (hunlink : st.fs.unlinkFails = false) :
    fetch_stream_url_with_retry mr d
        (fun n => (fetch_stream_url endpoint csAvail (T n) ty idv).ret) =
      .ok ⟨some "", none, 1, []⟩ ∧
    ∃ st', process_stream folder subfolder slug mr d
        (fun n => (fetch_stream_url endpoint csAvail (T n) ty idv).ret) st = .ok st' ∧
      st'.total_fail = st.total_fail + 1 ∧
      st'.total_success = st.total_success ∧
      st'.fs.files (get_output_path folder subfolder slug) = none ∧
      st'.error_summary = st.error_summary := by
  have hretry : fetch_stream_url_with_retry mr d
      (fun n => (fetch_stream_url endpoint csAvail (T n) ty idv).ret) =
      .ok ⟨some "", none, 1, []⟩ :=
    retry_first_success h1
      (fetch_empty_success (sa 1) (rs 1) hty (htr 1) (h2xx 1))
  refine ⟨hretry, fail_branch folder subfolder slug none st, ?_, ?_, ?_, ?_, ?_⟩
  · unfold process_stream
    rw [hretry]
    dsimp only
    rw [if_neg (show ¬ ("" ≠ "") by simp)]
  · rfl
  · rfl
  · rw [fail_branch_eq]
    exact delete_old_file_clears folder subfolder slug st.fs hunlink
  · rfl

/-- Witness for C10: a channel descriptor whose endpoint always answers
`200 OK` with an empty body; the stale artifact is removed, the descriptor is
counted as a failure, and the histogram stays empty. -/
theorem C10_witness :
    fetch_stream_url_with_retry 3 2
        (fun n => (fetch_stream_url defaultEndpoint true
          ((fun _ _ _ => .resp 200 "OK" "") n) (some "channel") "abc").ret) =
      .ok ⟨some "", none, 1, []⟩ ∧
    (process_stream "streams" "" "mychannel" 3 2
        (fun n => (fetch_stream_url defaultEndpoint true
          ((fun _ _ _ => .resp 200 "OK" "") n) (some "channel") "abc").ret) stOld).map
      (fun s => (s.total_fail, s.total_success,
        s.fs.files (get_output_path "streams" "" "mychannel"),
        s.error_summary "HTMLResponse", s.error_summary "Timeout")) =
      .ok (1, 0, none, 0, 0) := by
  obtain ⟨h1, st', h2, h3, h4, h5, h6⟩ :=
    C10_empty_body defaultEndpoint "streams" "" "mychannel" "abc" 3 2 true
      (fun _ _ _ => .resp 200 "OK" "") (some "channel")
      (fun _ _ => 200) (fun _ _ => "OK") stOld
      (Or.inr rfl) (fun a r u => rfl) (fun a u => (by decide : (200 : Nat) < 400)) (by omega) rfl
  refine ⟨h1, ?_⟩
  rw [h2]
  show Except.ok (st'.total_fail, st'.total_success,
    st'.fs.files (get_output_path "streams" "" "mychannel"),
    st'.error_summary "HTMLResponse", st'.error_summary "Timeout") = _
  rw [h3, h4, h5, h6]
  rfl
